import Mathlib

/-!
Shallow embedding of `src/server/admin_server.go` (baetyl-cloud admin server):
the request pipeline of route registration (`InitRoute`), the middleware chain
semantics (authentication gate, lock wrapper, node-quota admission, terminal
handlers), the response-cache wrapper (`WrapperCache` / `WrapperCacheDuration`)
and the package-level `NodeCollector` variable.
-/

namespace AdminServer

/-- HTTP methods used by the route table; `ANY` stands for the engine-level
no-route / no-method fallback handlers which match any method. -/
inductive Method where
  | GET | PUT | POST | DELETE | ANY
deriving DecidableEq, Repr

/-- One element of a gin handler chain, as registered in `InitRoute`.
`ExternalHandlers` stands for the spliced `s.ExternalHandlers...` list, which
gin inserts as a block between the group's `AuthHandler` and the per-route
handlers; `WrapperH name` is `common.Wrapper(s.api.name)` (the terminal
handler), `WrapperCacheH name` is `s.WrapperCache(s.api.name)`. -/
inductive Mw where
  | RequestIDHandler
  | LoggerHandler
  | AuthHandler
  | ExternalHandlers
  | WrapperWithLock
  | WrapperRawValidateCreating
  | WrapperRawValidateDeleting
  | NodeQuotaHandler
  | WrapperCacheH (handler : String)
  | WrapperH (handler : String)
  | HealthH
  | NoRouteH
  | NoMethodH
deriving DecidableEq, Repr

/-- A registered route: method, full path (group path joined with the route
path, as gin does), and the handler chain that runs for it. -/
structure Route where
  method : Method
  path : String
  chain : List Mw
deriving DecidableEq, Repr

/-- The chain of a route in the `v1` group: the engine middlewares installed
by `router.Use` (`RequestIDHandler`, `LoggerHandler`), then the group
middlewares from `GetV1RouterGroup` (`AuthHandler`, then `ExternalHandlers`),
then the route's own handlers. -/
def v1c (specific : List Mw) : List Mw :=
  [.RequestIDHandler, .LoggerHandler, .AuthHandler, .ExternalHandlers] ++ specific

/-- The chain of a route in the `v2` group, built identically by
`GetV2RouterGroup`. -/
def v2c (specific : List Mw) : List Mw :=
  [.RequestIDHandler, .LoggerHandler, .AuthHandler, .ExternalHandlers] ++ specific

/-- Routes registered on the engine itself, before the `v1`/`v2` groups:
`NoRoute`, `NoMethod` and `GET /health`.  `/health` is registered before
`router.Use`, so it carries no engine middleware; the no-route/no-method
fallbacks are combined with the engine middlewares. -/
def engineRoutes : List Route :=
  [ ⟨.ANY, "*noroute*", [.RequestIDHandler, .LoggerHandler, .NoRouteH]⟩,
    ⟨.ANY, "*nomethod*", [.RequestIDHandler, .LoggerHandler, .NoMethodH]⟩,
    ⟨.GET, "/health", [.HealthH]⟩ ]

/-- The `v1.Group("/configs")` routes. -/
def configRoutes : List Route :=
  [ ⟨.GET, "/v1/configs/:name", v1c [.WrapperCacheH "GetConfig"]⟩,
    ⟨.PUT, "/v1/configs/:name", v1c [.WrapperWithLock, .WrapperH "UpdateConfig"]⟩,
    ⟨.DELETE, "/v1/configs/:name", v1c [.WrapperRawValidateDeleting, .WrapperH "DeleteConfig"]⟩,
    ⟨.POST, "/v1/configs", v1c [.WrapperRawValidateCreating, .WrapperH "CreateConfig"]⟩,
    ⟨.GET, "/v1/configs", v1c [.WrapperCacheH "ListConfig"]⟩,
    ⟨.GET, "/v1/configs/:name/apps", v1c [.WrapperH "GetAppByConfig"]⟩ ]

/-- The `v1.Group("/registries")` routes. -/
def registryRoutes : List Route :=
  [ ⟨.GET, "/v1/registries/:name", v1c [.WrapperH "GetRegistry"]⟩,
    ⟨.PUT, "/v1/registries/:name", v1c [.WrapperH "UpdateRegistry"]⟩,
    ⟨.POST, "/v1/registries/:name/refresh", v1c [.WrapperH "RefreshRegistryPassword"]⟩,
    ⟨.DELETE, "/v1/registries/:name", v1c [.WrapperRawValidateDeleting, .WrapperH "DeleteRegistry"]⟩,
    ⟨.POST, "/v1/registries", v1c [.WrapperRawValidateCreating, .WrapperH "CreateRegistry"]⟩,
    ⟨.GET, "/v1/registries", v1c [.WrapperCacheH "ListRegistry"]⟩,
    ⟨.GET, "/v1/registries/:name/apps", v1c [.WrapperH "GetAppByRegistry"]⟩ ]

/-- The `v1.Group("/certificates")` routes. -/
def certificateRoutes : List Route :=
  [ ⟨.GET, "/v1/certificates/:name", v1c [.WrapperH "GetCertificate"]⟩,
    ⟨.PUT, "/v1/certificates/:name", v1c [.WrapperWithLock, .WrapperH "UpdateCertificate"]⟩,
    ⟨.DELETE, "/v1/certificates/:name", v1c [.WrapperRawValidateDeleting, .WrapperH "DeleteCertificate"]⟩,
    ⟨.POST, "/v1/certificates", v1c [.WrapperRawValidateCreating, .WrapperH "CreateCertificate"]⟩,
    ⟨.GET, "/v1/certificates", v1c [.WrapperCacheH "ListCertificate"]⟩,
    ⟨.GET, "/v1/certificates/:name/apps", v1c [.WrapperH "GetAppByCertificate"]⟩ ]

/-- The `v1.Group("/secrets")` routes. -/
def secretRoutes : List Route :=
  [ ⟨.GET, "/v1/secrets/:name", v1c [.WrapperH "GetSecret"]⟩,
    ⟨.PUT, "/v1/secrets/:name", v1c [.WrapperH "UpdateSecret"]⟩,
    ⟨.DELETE, "/v1/secrets/:name", v1c [.WrapperRawValidateDeleting, .WrapperH "DeleteSecret"]⟩,
    ⟨.POST, "/v1/secrets", v1c [.WrapperRawValidateCreating, .WrapperH "CreateSecret"]⟩,
    ⟨.GET, "/v1/secrets", v1c [.WrapperCacheH "ListSecret"]⟩,
    ⟨.GET, "/v1/secrets/:name/apps", v1c [.WrapperH "GetAppBySecret"]⟩ ]

/-- The `v1.Group("/nodes")` routes. -/
def nodeRoutes : List Route :=
  [ ⟨.GET, "/v1/nodes/:name", v1c [.WrapperCacheH "GetNode"]⟩,
    ⟨.PUT, "/v1/nodes", v1c [.WrapperH "GetNodes"]⟩,
    ⟨.GET, "/v1/nodes/:name/apps", v1c [.WrapperCacheH "GetAppByNode"]⟩,
    ⟨.GET, "/v1/nodes/:name/functions", v1c [.WrapperH "GetFunctionsByNode"]⟩,
    ⟨.GET, "/v1/nodes/:name/stats", v1c [.WrapperCacheH "GetNodeStats"]⟩,
    ⟨.PUT, "/v1/nodes/:name", v1c [.WrapperWithLock, .WrapperH "UpdateNode"]⟩,
    ⟨.DELETE, "/v1/nodes/:name", v1c [.WrapperH "DeleteNode"]⟩,
    ⟨.POST, "/v1/nodes", v1c [.WrapperWithLock, .NodeQuotaHandler, .WrapperH "CreateNode"]⟩,
    ⟨.GET, "/v1/nodes", v1c [.WrapperCacheH "ListNode"]⟩,
    ⟨.GET, "/v1/nodes/:name/deploys", v1c [.WrapperCacheH "GetNodeDeployHistory"]⟩,
    ⟨.GET, "/v1/nodes/:name/init", v1c [.WrapperCacheH "GenInitCmdFromNode"]⟩,
    ⟨.PUT, "/v1/nodes/:name/mode", v1c [.WrapperH "UpdateNodeMode"]⟩,
    ⟨.PUT, "/v1/nodes/:name/properties", v1c [.WrapperH "UpdateNodeProperties"]⟩,
    ⟨.GET, "/v1/nodes/:name/properties", v1c [.WrapperCacheH "GetNodeProperties"]⟩,
    ⟨.PUT, "/v1/nodes/:name/core/configs", v1c [.WrapperH "UpdateCoreApp"]⟩,
    ⟨.GET, "/v1/nodes/:name/core/configs", v1c [.WrapperCacheH "GetCoreAppConfigs"]⟩,
    ⟨.GET, "/v1/nodes/:name/core/versions", v1c [.WrapperCacheH "GetCoreAppVersions"]⟩ ]

/-- The `v1.Group("/apps")` routes. -/
def appRoutes : List Route :=
  [ ⟨.GET, "/v1/apps/:name", v1c [.WrapperCacheH "GetApplication"]⟩,
    ⟨.GET, "/v1/apps/:name/configs", v1c [.WrapperCacheH "GetSysAppConfigs"]⟩,
    ⟨.GET, "/v1/apps/:name/secrets", v1c [.WrapperCacheH "GetSysAppSecrets"]⟩,
    ⟨.GET, "/v1/apps/:name/certificates", v1c [.WrapperCacheH "GetSysAppCertificates"]⟩,
    ⟨.GET, "/v1/apps/:name/registries", v1c [.WrapperCacheH "GetSysAppRegistries"]⟩,
    ⟨.PUT, "/v1/apps/:name", v1c [.WrapperWithLock, .WrapperH "UpdateApplication"]⟩,
    ⟨.DELETE, "/v1/apps/:name", v1c [.WrapperRawValidateDeleting, .WrapperH "DeleteApplication"]⟩,
    ⟨.POST, "/v1/apps", v1c [.WrapperRawValidateCreating, .WrapperWithLock, .WrapperH "CreateApplication"]⟩,
    ⟨.GET, "/v1/apps", v1c [.WrapperCacheH "ListApplication"]⟩ ]

/-- The `v1.Group("/namespace")` routes. -/
def namespaceRoutes : List Route :=
  [ ⟨.POST, "/v1/namespace", v1c [.WrapperH "CreateNamespace"]⟩,
    ⟨.GET, "/v1/namespace", v1c [.WrapperCacheH "GetNamespace"]⟩,
    ⟨.DELETE, "/v1/namespace", v1c [.WrapperH "DeleteNamespace"]⟩ ]

/-- The `v1.Group("/functions")` routes; the source-gated block is present
only when `len(s.cfg.Plugin.Functions) != 0`. -/
def functionRoutes (hasFunctions : Bool) : List Route :=
  ⟨.GET, "/v1/functions", v1c [.WrapperH "ListFunctionSources"]⟩ ::
  (if hasFunctions then
    [ ⟨.GET, "/v1/functions/:source/functions", v1c [.WrapperH "ListFunctions"]⟩,
      ⟨.GET, "/v1/functions/:source/functions/:name/versions", v1c [.WrapperH "ListFunctionVersions"]⟩,
      ⟨.POST, "/v1/functions/:source/functions/:name/versions/:version", v1c [.WrapperH "ImportFunction"]⟩ ]
   else [])

/-- The deprecated `v1.Group("/objects")` routes; the bucket block is present
only when `len(s.cfg.Plugin.Objects) != 0`. -/
def objectRoutesV1 (hasObjects : Bool) : List Route :=
  ⟨.GET, "/v1/objects", v1c [.WrapperH "ListObjectSources"]⟩ ::
  (if hasObjects then
    [ ⟨.GET, "/v1/objects/:source/buckets", v1c [.WrapperH "ListBuckets"]⟩,
      ⟨.GET, "/v1/objects/:source/buckets/:bucket/objects", v1c [.WrapperH "ListBucketObjects"]⟩ ]
   else [])

/-- The `v1.Group("properties")` and `v1.Group("sysconfig")` routes; the two
sysconfig handlers are anonymous functions in the source, named here after
what they serve. -/
def propertySysRoutes : List Route :=
  [ ⟨.GET, "/v1/properties/:name", v1c [.WrapperH "GetProperty"]⟩,
    ⟨.GET, "/v1/sysconfig/baetyl_version/latest", v1c [.WrapperH "SysConfigLatestBaetylVersion"]⟩,
    ⟨.GET, "/v1/sysconfig/baetyl-function-runtime", v1c [.WrapperH "SysConfigFunctionRuntimes"]⟩ ]

/-- The `v1.Group("modules")` routes. -/
def moduleRoutes : List Route :=
  [ ⟨.GET, "/v1/modules", v1c [.WrapperCacheH "ListModules"]⟩,
    ⟨.GET, "/v1/modules/:name", v1c [.WrapperCacheH "GetModules"]⟩,
    ⟨.GET, "/v1/modules/:name/version/:version", v1c [.WrapperCacheH "GetModuleByVersion"]⟩,
    ⟨.GET, "/v1/modules/:name/latest", v1c [.WrapperCacheH "GetLatestModule"]⟩,
    ⟨.POST, "/v1/modules", v1c [.WrapperH "CreateModule"]⟩,
    ⟨.PUT, "/v1/modules/:name/version/:version", v1c [.WrapperH "UpdateModule"]⟩,
    ⟨.DELETE, "/v1/modules/:name", v1c [.WrapperH "DeleteModules"]⟩,
    ⟨.DELETE, "/v1/modules/:name/version/:version", v1c [.WrapperH "DeleteModules"]⟩ ]

/-- The `v1.Group("/quotas")` and `v1.Group("yaml")` routes. -/
def quotaYamlRoutes : List Route :=
  [ ⟨.GET, "/v1/quotas", v1c [.WrapperCacheH "GetQuota"]⟩,
    ⟨.POST, "/v1/yaml", v1c [.WrapperH "CreateYamlResource"]⟩,
    ⟨.PUT, "/v1/yaml", v1c [.WrapperH "UpdateYamlResource"]⟩,
    ⟨.POST, "/v1/yaml/delete", v1c [.WrapperH "DeleteYamlResource"]⟩ ]

/-- The `v2.Group("/objects")` routes; the bucket block is present only when
`len(s.cfg.Plugin.Objects) != 0`. -/
def objectRoutesV2 (hasObjects : Bool) : List Route :=
  ⟨.GET, "/v2/objects", v2c [.WrapperCacheH "ListObjectSourcesV2"]⟩ ::
  (if hasObjects then
    [ ⟨.GET, "/v2/objects/:source/buckets", v2c [.WrapperH "ListBucketsV2"]⟩,
      ⟨.GET, "/v2/objects/:source/buckets/:bucket/objects", v2c [.WrapperH "ListBucketObjectsV2"]⟩,
      ⟨.GET, "/v2/objects/:source/buckets/:bucket/object", v2c [.WrapperH "GetObjectPathV2"]⟩,
      ⟨.GET, "/v2/objects/:source/buckets/:bucket/object/put", v2c [.WrapperH "GetObjectPutPathV2"]⟩ ]
   else [])

/-- The complete route table registered by `InitRoute`, in registration
order, parameterized by whether the Functions and Objects plugin lists are
non-empty. -/
def initRoutes (hasFunctions hasObjects : Bool) : List Route :=
  engineRoutes ++ configRoutes ++ registryRoutes ++ certificateRoutes ++
  secretRoutes ++ nodeRoutes ++ appRoutes ++ namespaceRoutes ++
  functionRoutes hasFunctions ++ objectRoutesV1 hasObjects ++
  propertySysRoutes ++ moduleRoutes ++ quotaYamlRoutes ++
  objectRoutesV2 hasObjects

/-- Fields attached to a log entry by the handlers in the source:
`AuthHandler` logs trace, namespace, the raw Authorization header and the
error; `NodeQuotaHandler` logs trace, namespace and the error. -/
inductive LogField where
  | traceField | namespaceField | authorizationHeaderField | errorField
deriving DecidableEq, Repr

/-- Error codes of the failure envelope relevant to the pipeline. -/
inductive ErrCode where
  | accessDenied | quotaExceeded | lockConflict | validationFailed
deriving DecidableEq, Repr

/-- A failure envelope emitted by an aborting middleware, together with the
fields the middleware logged at the point of failure. -/
structure Failure where
  code : ErrCode
  logged : List LogField
deriving DecidableEq, Repr

/-- Modelled from the spec: `service.QuotaService.CheckQuota` (not under
`src/`): compares the live collector count plus the pending creation against
the namespace's limit and fails closed when the collector is unavailable
(`none`). -/
def CheckQuota (count : Option Nat) (limit : Nat) : Option ErrCode :=
  match count with
  | none => some .quotaExceeded
  | some c => if c + 1 > limit then some .quotaExceeded else none

/-- The per-request environment determining each middleware's outcome: the
authentication result, the lock-acquisition result, the request-validation
result, and the node count seen by the quota collector with the namespace's
node limit. -/
structure ReqEnv where
  authOk : Bool
  lockOk : Bool
  validateOk : Bool
  nodeCount : Option Nat
  nodeLimit : Nat
deriving DecidableEq, Repr

/-- Outcome of one middleware: continue down the chain, or abort it with a
failure envelope. -/
inductive StepResult where
  | proceed
  | abort (f : Failure)
deriving DecidableEq, Repr

/-- Modelled from the spec and `src/server/admin_server.go` lines 294-317:
what each chain element does to a request.  `AuthHandler` aborts with an
access-denied envelope and logs trace, namespace, the raw Authorization
header and the error (lines 298-303); `NodeQuotaHandler` aborts with the
`CheckQuota` error and logs trace, namespace and the error (lines 311-315);
`common.WrapperWithLock` and `common.WrapperRaw` (code of this repository
not under `src/`) abort on lock conflict / failed validation; everything
else proceeds.  Abort semantics (`common.PopulateFailedResponse` with
abort=true) follow gin: an aborted chain runs no later handler. -/
def step (env : ReqEnv) : Mw → StepResult
  | .AuthHandler =>
      if env.authOk then .proceed
      else .abort ⟨.accessDenied,
        [.traceField, .namespaceField, .authorizationHeaderField, .errorField]⟩
  | .WrapperWithLock =>
      if env.lockOk then .proceed else .abort ⟨.lockConflict, []⟩
  | .WrapperRawValidateCreating =>
      if env.validateOk then .proceed else .abort ⟨.validationFailed, []⟩
  | .WrapperRawValidateDeleting =>
      if env.validateOk then .proceed else .abort ⟨.validationFailed, []⟩
  | .NodeQuotaHandler =>
      match CheckQuota env.nodeCount env.nodeLimit with
      | some e => .abort ⟨e, [.traceField, .namespaceField, .errorField]⟩
      | none => .proceed
  | _ => .proceed

/-- Result of running a chain: the elements that actually executed, in
order, and the failure envelope when some element aborted. -/
structure RunResult where
  executed : List Mw
  failure : Option Failure
deriving DecidableEq, Repr

/-- Modelled from gin's handler-chain semantics: run the chain in order;
an aborting element is the last one executed and its envelope is the
request's failure response. -/
def runChain (env : ReqEnv) : List Mw → RunResult
  | [] => ⟨[], none⟩
  | m :: rest =>
    match step env m with
    | .proceed =>
        let r := runChain env rest
        ⟨m :: r.executed, r.failure⟩
    | .abort f => ⟨[m], some f⟩

/-- Terminal handlers: `common.Wrapper` and `s.WrapperCache` wrapped API
handlers. -/
def isTerminal : Mw → Bool
  | .WrapperH _ => true
  | .WrapperCacheH _ => true
  | _ => false

/-- Chain elements the authentication gate must precede: external handlers,
the lock wrapper, the quota check and the terminal handlers. -/
def laterKind (m : Mw) : Bool :=
  m = .ExternalHandlers || m = .WrapperWithLock || m = .NodeQuotaHandler || isTerminal m

/-- Every element preceding `AuthHandler` in the chain is none of the kinds
auth must run before. -/
def authBeforeLater (l : List Mw) : Bool :=
  (l.takeWhile (fun m => m ≠ .AuthHandler)).all (fun m => !laterKind m)

/-- Pipeline stage of a chain element, for the fixed composition order
auth → lock → quota → terminal handler. -/
def stageOf : Mw → Option Nat
  | .AuthHandler => some 0
  | .WrapperWithLock => some 1
  | .NodeQuotaHandler => some 2
  | .WrapperH _ => some 3
  | .WrapperCacheH _ => some 3
  | _ => none

/-- The staged elements of the chain appear in strictly increasing stage
order. -/
def orderedChain (l : List Mw) : Bool :=
  decide (List.Pairwise (· < ·) (l.filterMap stageOf))

/-- Every element preceding `NodeQuotaHandler` in the chain is not a
terminal handler: the quota check runs strictly before the handler. -/
def quotaBeforeTerminal (l : List Mw) : Bool :=
  (l.takeWhile (fun m => m ≠ .NodeQuotaHandler)).all (fun m => !isTerminal m)

/-- A resource-creation route: POST to a resource collection of the six
resource kinds named by the spec. -/
def isCreationRoute (r : Route) : Bool :=
  r.method = .POST &&
    (r.path = "/v1/configs" || r.path = "/v1/registries" ||
     r.path = "/v1/certificates" || r.path = "/v1/secrets" ||
     r.path = "/v1/nodes" || r.path = "/v1/apps")

/-- The chain of `nodes.POST("")` (line 155 of the source): lock wrapper,
node-quota admission, then the `CreateNode` terminal handler. -/
def nodesPostChain : List Mw :=
  v1c [.WrapperWithLock, .NodeQuotaHandler, .WrapperH "CreateNode"]

/-! ### The response-cache wrapper (`WrapperCache` / `WrapperCacheDuration`) -/

/-- `DefaultAPICacheDuration = time.Second * 2` (source line 38), in Go
nanoseconds. -/
def DefaultAPICacheDuration : Int := 1000000000 * 2

/-- The `AdminServer` configuration fields the cache wrapper reads:
`s.cfg.AdminServer.CacheEnable` and `s.cfg.AdminServer.CacheDuration`
(a Go `time.Duration`, modelled as an integer nanosecond count). -/
structure AdminConfig where
  cacheEnable : Bool
  cacheDuration : Int
deriving DecidableEq, Repr

/-- A handler after wrapping: either the caching wrapper produced by
`cache.WCacheByRequestURI` with its duration, context key list and header
whitelist, or the plain `common.Wrapper` envelope wrapper. -/
inductive WrappedHandler where
  | cached (handler : String) (dur : Int) (ctxKeys : List String)
      (headerWhitelist : List String)
  | plain (handler : String)
deriving DecidableEq, Repr

/-- Modelled from the spec: `common.Wrapper` (code of this repository not
under `src/`) wraps a terminal handler into the plain envelope-producing
handler, with no caching. -/
def Wrapper (handler : String) : WrappedHandler := .plain handler

/-- `WrapperCacheDuration` (source lines 330-340): wrap the handler with
`cache.WCacheByRequestURI`, keyed additionally by the gin-context value
`"namespace"`, with all response headers dropped except the whitelisted
`Content-Type`. -/
def WrapperCacheDuration (handler : String) (dur : Int) : WrappedHandler :=
  .cached handler dur ["namespace"] ["Content-Type"]

/-- `WrapperCache` (source lines 319-328): when caching is enabled, use the
configured duration if it is strictly positive and `DefaultAPICacheDuration`
otherwise; when caching is disabled, fall back to the plain
`common.Wrapper`. -/
def WrapperCache (cfg : AdminConfig) (handler : String) : WrappedHandler :=
  if cfg.cacheEnable then
    let dur := if cfg.cacheDuration > 0 then cfg.cacheDuration
               else DefaultAPICacheDuration
    WrapperCacheDuration handler dur
  else Wrapper handler

/-- A cache key as derived by `cache.WCacheByRequestURI` with
`cache.KeyWithGinContext([]string{"namespace"})`: the request URI (path and
query) combined with the namespace taken from the request context. -/
structure CacheKey where
  uri : String
  ns : String
deriving DecidableEq, Repr

/-- A cacheable request: its URI (canonical path plus query) and the tenant
namespace resolved into the request context by the authentication gate. -/
structure CacheReq where
  uri : String
  ns : String
deriving DecidableEq, Repr

/-- Modelled from the spec: the cache-key derivation of
`cache.KeyWithGinContext` — a composite of the request URI and the tenant
identity from the request context, not from raw headers. -/
def mkCacheKey (req : CacheReq) : CacheKey := ⟨req.uri, req.ns⟩

/-- A stored cache entry: the response payload and the filtered headers. -/
structure CacheEntry where
  payload : String
  headers : List (String × String)
deriving DecidableEq, Repr

/-- What the wrapped handler itself produced: success flag, payload, and
response headers. -/
structure HandlerResult where
  ok : Bool
  payload : String
  headers : List (String × String)
deriving DecidableEq, Repr

/-- An operation against the cache store. -/
inductive CacheOp where
  | getOp (key : CacheKey)
  | setOp (key : CacheKey) (entry : CacheEntry) (ttl : Int)
deriving DecidableEq, Repr

/-- The response a wrapped handler returns: whether it was replayed from
cache, plus payload and headers. -/
structure WrappedResponse where
  fromCache : Bool
  payload : String
  headers : List (String × String)
deriving DecidableEq, Repr

/-- Headers kept by the cache layer under a whitelist: with
`cache.WithoutHeader()` every header is dropped, and
`cache.WithoutHeaderIgnore(ws)` re-admits exactly those named in `ws`. -/
def keptHeaders (whitelist : List String)
    (hs : List (String × String)) : List (String × String) :=
  hs.filter (fun h => whitelist.contains h.1)

/-- Modelled from the spec: the runtime behaviour of a wrapped handler
(`cache.WCacheByRequestURI` of baetyl-go, not under `src/`).  The plain
wrapper delegates to the handler with no cache operation.  The caching
wrapper looks its key up in the store; a hit is replayed without invoking
the handler; a miss invokes the handler and, only on success, writes the
entry (headers filtered by the whitelist) with the wrapper's TTL. -/
def runWrapped (w : WrappedHandler) (store : CacheKey → Option CacheEntry)
    (req : CacheReq) (hres : HandlerResult) :
    WrappedResponse × List CacheOp :=
  match w with
  | .plain _ => (⟨false, hres.payload, hres.headers⟩, [])
  | .cached _ dur _ whitelist =>
    let key := mkCacheKey req
    match store key with
    | some e => (⟨true, e.payload, e.headers⟩, [.getOp key])
    | none =>
      if hres.ok then
        let entry : CacheEntry := ⟨hres.payload, keptHeaders whitelist hres.headers⟩
        (⟨false, hres.payload, hres.headers⟩, [.getOp key, .setOp key entry dur])
      else (⟨false, hres.payload, hres.headers⟩, [.getOp key])

/-- A store holding exactly one entry, at key `k`. -/
def singleStore (k : CacheKey) (e : CacheEntry) : CacheKey → Option CacheEntry :=
  fun k' => if k' = k then some e else none

/-! ### The package-level `NodeCollector` variable -/

/-- The package-level mutable state of `package server`: the single `var
NodeCollector plugin.QuotaCollector` (source lines 41-43).  A collector is
identified by an opaque tag; `none` is Go's nil. -/
structure PkgVars where
  nodeCollector : Option Nat
deriving DecidableEq, Repr

/-- Package state at process start: `NodeCollector` is nil. -/
def initialPkgVars : PkgVars := ⟨none⟩

/-- The per-server datum relevant to the collector: the server's
`s.api.NodeNumberCollector`. -/
structure ServerModel where
  nodeNumberCollector : Nat
deriving DecidableEq, Repr

/-- Effect of `NewAdminServer` (source lines 46-80) on the package state:
it never touches `NodeCollector`. -/
def NewAdminServerGlobals (p : PkgVars) : PkgVars := p

/-- Effect of `InitRoute` (source line 106) on the package state:
`NodeCollector = s.api.NodeNumberCollector`. -/
def InitRouteGlobals (s : ServerModel) (_p : PkgVars) : PkgVars :=
  ⟨some s.nodeNumberCollector⟩

/-- The collector `NodeQuotaHandler` passes to `CheckQuota` (source line
310): the current value of the package-level `NodeCollector`. -/
def NodeQuotaCollector (p : PkgVars) : Option Nat := p.nodeCollector

/-! ### Named routes and environments used in theorem statements -/

/-- The `configs.POST("")` route (source line 114). -/
def configsPostRoute : Route :=
  ⟨.POST, "/v1/configs", v1c [.WrapperRawValidateCreating, .WrapperH "CreateConfig"]⟩

/-- The `certificate.PUT("/:name")` route (source line 131). -/
def certPutRoute : Route :=
  ⟨.PUT, "/v1/certificates/:name", v1c [.WrapperWithLock, .WrapperH "UpdateCertificate"]⟩

/-- The `nodes.POST("")` route (source line 155). -/
def nodesPostRoute : Route := ⟨.POST, "/v1/nodes", nodesPostChain⟩

/-- The method/path pairs of the routes registered with
`common.WrapperWithLock` in `InitRoute`. -/
def lockRouteKeys : List (Method × String) :=
  [(.PUT, "/v1/configs/:name"), (.PUT, "/v1/certificates/:name"),
   (.PUT, "/v1/nodes/:name"), (.POST, "/v1/nodes"),
   (.PUT, "/v1/apps/:name"), (.POST, "/v1/apps")]

/-- An environment whose authentication fails and everything else succeeds. -/
def envAuthFail : ReqEnv := ⟨false, true, true, some 0, 10⟩

/-- An environment that authenticates and locks fine but whose node count
already equals the limit, so the quota check fails. -/
def envQuotaFail : ReqEnv := ⟨true, true, true, some 10, 10⟩

/-! ### Helper lemmas -/

/-- Running a chain whose elements all proceed up to an aborting element
executes exactly that prefix plus the aborting element and returns its
failure: nothing after the aborting element runs. -/
lemma runChain_abort_after (env : ReqEnv) (pre : List Mw) (m : Mw)
    (post : List Mw) (fl : Failure)
    (hpre : ∀ m' ∈ pre, step env m' = .proceed)
    (hm : step env m = .abort fl) :
    runChain env (pre ++ m :: post) = ⟨pre ++ [m], some fl⟩ := by
  induction pre with
  | nil => simp [runChain, hm]
  | cons a rest ih =>
    have ha : step env a = .proceed := hpre a (List.mem_cons_self a rest)
    have ihr := ih (fun m' hm' => hpre m' (List.mem_cons_of_mem a hm'))
    simp [runChain, ha, ihr]

/-- A `setOp` emitted by the caching wrapper carries the wrapper's TTL, the
request's key, a successful handler result, and the whitelist-filtered
headers. -/
lemma setOp_spec (hname : String) (dur : Int) (ck wl : List String)
    (store : CacheKey → Option CacheEntry) (req : CacheReq)
    (hres : HandlerResult) (k : CacheKey) (e : CacheEntry) (t : Int)
    (hmem : CacheOp.setOp k e t ∈
      (runWrapped (.cached hname dur ck wl) store req hres).2) :
    t = dur ∧ k = mkCacheKey req ∧ hres.ok = true ∧
      e = ⟨hres.payload, keptHeaders wl hres.headers⟩ := by
  simp only [runWrapped] at hmem
  cases hs : store (mkCacheKey req) with
  | some entry =>
    simp only [hs] at hmem
    simp at hmem
  | none =>
    simp only [hs] at hmem
    cases hok : hres.ok with
    | false => simp [hok] at hmem
    | true =>
      simp [hok] at hmem
      obtain ⟨hk, he, ht⟩ := hmem
      exact ⟨ht, hk, rfl, he⟩

/-! ### Claim theorems -/

/-- C3: in every route registered by `InitRoute`, `AuthHandler` is present
exactly when the route is not the health check or the no-route/no-method
fallback; where present, the only chain elements before it are the two
engine middlewares (so it is the first middleware of its group), and it
precedes every external handler, lock wrapper, quota check and terminal
handler. -/
theorem auth_gate_first :
    ∀ f o : Bool, ∀ r ∈ initRoutes f o,
      ((Mw.AuthHandler ∈ r.chain) ↔
        ¬(r.path = "/health" ∨ r.path = "*noroute*" ∨ r.path = "*nomethod*"))
      ∧ (Mw.AuthHandler ∈ r.chain →
          r.chain.take 3 = [.RequestIDHandler, .LoggerHandler, .AuthHandler]
          ∧ authBeforeLater r.chain = true) := by decide

/-- Witness for C3 at the node-creation route of the full table. -/
theorem auth_gate_first_witness :
    nodesPostRoute ∈ initRoutes true true
    ∧ (Mw.AuthHandler ∈ nodesPostRoute.chain →
        nodesPostRoute.chain.take 3 =
          [.RequestIDHandler, .LoggerHandler, .AuthHandler]
        ∧ authBeforeLater nodesPostRoute.chain = true) :=
  ⟨by decide, (auth_gate_first true true nodesPostRoute (by decide)).2⟩

/-- C5 counterexample: the certificate-update route carries the lock
wrapper although it is none of the four routes the claim allows (update
config, update node, update application, create application). -/
theorem lock_routes_counterexample :
    certPutRoute ∈ initRoutes true true
    ∧ Mw.WrapperWithLock ∈ certPutRoute.chain
    ∧ certPutRoute.path ≠ "/v1/configs/:name"
    ∧ certPutRoute.path ≠ "/v1/nodes/:name"
    ∧ certPutRoute.path ≠ "/v1/apps/:name"
    ∧ ¬(certPutRoute.method = .POST ∧ certPutRoute.path = "/v1/apps") := by
  decide

/-- C5 amended: the lock wrapper is used on exactly six routes — update
config, update certificate, update node, create node, update application,
create application — and on no other route. -/
theorem lock_routes_exact :
    ∀ f o : Bool, ∀ r ∈ initRoutes f o,
      (Mw.WrapperWithLock ∈ r.chain) ↔ (r.method, r.path) ∈ lockRouteKeys := by
  decide

/-- Witness for C5 amended at the certificate-update route. -/
theorem lock_routes_exact_witness :
    certPutRoute ∈ initRoutes true true
    ∧ ((Mw.WrapperWithLock ∈ certPutRoute.chain) ↔
        (certPutRoute.method, certPutRoute.path) ∈ lockRouteKeys) :=
  ⟨by decide, lock_routes_exact true true certPutRoute (by decide)⟩

/-- C6: on every registered route the staged middlewares occur in the fixed
order auth → lock → quota → terminal handler, and in the chain semantics an
aborting middleware is the last element to execute: nothing after it (in
particular no later stage and no handler) runs. -/
theorem pipeline_fixed_order :
    (∀ f o : Bool, ∀ r ∈ initRoutes f o, orderedChain r.chain = true)
    ∧ (∀ (env : ReqEnv) (pre : List Mw) (m : Mw) (post : List Mw)
        (fl : Failure), (∀ m' ∈ pre, step env m' = .proceed) →
        step env m = .abort fl →
        runChain env (pre ++ m :: post) = ⟨pre ++ [m], some fl⟩) :=
  ⟨by decide, fun env pre m post fl hpre hm =>
    runChain_abort_after env pre m post fl hpre hm⟩

/-- Witness for C6: the node-creation route is ordered, and a failing lock
wrapper on its chain stops execution before the quota check and handler. -/
theorem pipeline_fixed_order_witness :
    (nodesPostRoute ∈ initRoutes true true
      ∧ orderedChain nodesPostRoute.chain = true)
    ∧ ((∀ m' ∈ ([.RequestIDHandler, .LoggerHandler, .AuthHandler,
          .ExternalHandlers] : List Mw),
          step ⟨true, false, true, some 0, 10⟩ m' = .proceed)
      ∧ step ⟨true, false, true, some 0, 10⟩ .WrapperWithLock =
          .abort ⟨.lockConflict, []⟩
      ∧ runChain ⟨true, false, true, some 0, 10⟩
          ([.RequestIDHandler, .LoggerHandler, .AuthHandler,
            .ExternalHandlers] ++ .WrapperWithLock ::
            [.NodeQuotaHandler, .WrapperH "CreateNode"]) =
          ⟨[.RequestIDHandler, .LoggerHandler, .AuthHandler,
            .ExternalHandlers, .WrapperWithLock],
           some ⟨.lockConflict, []⟩⟩) :=
  ⟨⟨by decide, pipeline_fixed_order.1 true true nodesPostRoute (by decide)⟩,
   by decide,
   by decide,
   pipeline_fixed_order.2 ⟨true, false, true, some 0, 10⟩
      [.RequestIDHandler, .LoggerHandler, .AuthHandler, .ExternalHandlers]
      .WrapperWithLock [.NodeQuotaHandler, .WrapperH "CreateNode"]
      ⟨.lockConflict, []⟩ (by decide) (by decide)⟩

/-- C1 counterexample: the config-creation route — a resource-creation POST
route of the pipeline — carries no quota admission check at all, so the
quota check does not run before every creation handler. -/
theorem quota_missing_on_creation :
    configsPostRoute ∈ initRoutes true true
    ∧ isCreationRoute configsPostRoute = true
    ∧ Mw.NodeQuotaHandler ∉ configsPostRoute.chain := by decide

/-- C1 amended: among the resource-creation POST routes only the node
creation route carries the quota admission check; there it runs strictly
before the creation handler, and when `CheckQuota` fails the chain stops at
the quota middleware — the handler does not run — with a quota-exceeded
envelope logging trace id, namespace and the error. -/
theorem node_quota_admission :
    (∀ f o : Bool, ∀ r ∈ initRoutes f o, isCreationRoute r = true →
        ((Mw.NodeQuotaHandler ∈ r.chain) ↔ r.path = "/v1/nodes"))
    ∧ (∀ f o : Bool, ∀ r ∈ initRoutes f o, Mw.NodeQuotaHandler ∈ r.chain →
        quotaBeforeTerminal r.chain = true)
    ∧ (∀ c l e, CheckQuota c l = some e → e = .quotaExceeded)
    ∧ (∀ (env : ReqEnv) (e : ErrCode), env.authOk = true → env.lockOk = true →
        CheckQuota env.nodeCount env.nodeLimit = some e →
        runChain env nodesPostChain =
          ⟨[.RequestIDHandler, .LoggerHandler, .AuthHandler,
            .ExternalHandlers, .WrapperWithLock, .NodeQuotaHandler],
           some ⟨e, [.traceField, .namespaceField, .errorField]⟩⟩) := by
  refine ⟨by decide, by decide, ?_, ?_⟩
  · intro c l e h
    cases c with
    | none =>
      simp only [CheckQuota] at h
      simpa using h.symm
    | some n =>
      simp only [CheckQuota] at h
      by_cases hc : n + 1 > l
      · rw [if_pos hc] at h; simpa using h.symm
      · rw [if_neg hc] at h; exact absurd h (by simp)
  · intro env e hauth hlock hq
    have hstep : step env .NodeQuotaHandler =
        .abort ⟨e, [.traceField, .namespaceField, .errorField]⟩ := by
      simp [step, hq]
    simpa [nodesPostChain, v1c] using
      runChain_abort_after env
        [.RequestIDHandler, .LoggerHandler, .AuthHandler,
          .ExternalHandlers, .WrapperWithLock]
        .NodeQuotaHandler [.WrapperH "CreateNode"]
        ⟨e, [.traceField, .namespaceField, .errorField]⟩
        (by intro m' hm'; fin_cases hm' <;> simp [step, hauth, hlock])
        hstep

/-- Witness for C1 amended: the node-creation route of the full table, and
an environment at the quota limit where the check fails and the chain stops
before `CreateNode`. -/
theorem node_quota_admission_witness :
    (nodesPostRoute ∈ initRoutes true true
      ∧ isCreationRoute nodesPostRoute = true
      ∧ ((Mw.NodeQuotaHandler ∈ nodesPostRoute.chain) ↔
          nodesPostRoute.path = "/v1/nodes"))
    ∧ (envQuotaFail.authOk = true ∧ envQuotaFail.lockOk = true
      ∧ CheckQuota envQuotaFail.nodeCount envQuotaFail.nodeLimit =
          some .quotaExceeded
      ∧ runChain envQuotaFail nodesPostChain =
          ⟨[.RequestIDHandler, .LoggerHandler, .AuthHandler,
            .ExternalHandlers, .WrapperWithLock, .NodeQuotaHandler],
           some ⟨.quotaExceeded,
             [.traceField, .namespaceField, .errorField]⟩⟩) :=
  ⟨⟨by decide, by decide,
    (node_quota_admission.1 true true nodesPostRoute (by decide)) (by decide)⟩,
   by decide, by decide, by decide,
   node_quota_admission.2.2.2 envQuotaFail .quotaExceeded rfl rfl (by decide)⟩

/-- C4: whenever authentication fails, a v1/v2-group chain executes only
the two engine middlewares and the authentication gate — no external
handler, lock wrapper, quota check or terminal handler runs — and the
request fails with the access-denied envelope whose log carries the trace
id, the namespace and the raw Authorization header with the error. -/
theorem auth_failure_short_circuit :
    ∀ (env : ReqEnv) (specific : List Mw), env.authOk = false →
      runChain env (v1c specific) =
        ⟨[.RequestIDHandler, .LoggerHandler, .AuthHandler],
         some ⟨.accessDenied,
           [.traceField, .namespaceField, .authorizationHeaderField,
            .errorField]⟩⟩
      ∧ ∀ m ∈ (runChain env (v1c specific)).executed,
          laterKind m = false := by
  intro env specific h
  have hstep : step env .AuthHandler =
      .abort ⟨.accessDenied,
        [.traceField, .namespaceField, .authorizationHeaderField,
          .errorField]⟩ := by
    simp [step, h]
  have he : runChain env (v1c specific) =
      ⟨[.RequestIDHandler, .LoggerHandler, .AuthHandler],
       some ⟨.accessDenied,
         [.traceField, .namespaceField, .authorizationHeaderField,
          .errorField]⟩⟩ := by
    simpa [v1c] using
      runChain_abort_after env [.RequestIDHandler, .LoggerHandler]
        .AuthHandler (.ExternalHandlers :: specific)
        ⟨.accessDenied,
          [.traceField, .namespaceField, .authorizationHeaderField,
            .errorField]⟩
        (by intro m' hm'; fin_cases hm' <;> simp [step])
        hstep
  refine ⟨he, ?_⟩
  rw [he]
  decide

/-- Witness for C4: a concrete failing-auth environment on the bare v1
chain. -/
theorem auth_failure_short_circuit_witness :
    envAuthFail.authOk = false
    ∧ runChain envAuthFail (v1c []) =
        ⟨[.RequestIDHandler, .LoggerHandler, .AuthHandler],
         some ⟨.accessDenied,
           [.traceField, .namespaceField, .authorizationHeaderField,
            .errorField]⟩⟩ :=
  ⟨by decide, (auth_failure_short_circuit envAuthFail [] (by decide)).1⟩

/-- C2: for identical request URIs, distinct namespaces always derive
distinct cache keys, and a store holding only an entry written for tenant B
never replays it to tenant A: A's request is a cache miss. -/
theorem tenant_cache_isolation :
    ∀ (u nsA nsB : String) (e : CacheEntry) (hres : HandlerResult)
      (hname : String) (dur : Int),
      nsA ≠ nsB →
      mkCacheKey ⟨u, nsA⟩ ≠ mkCacheKey ⟨u, nsB⟩
      ∧ (runWrapped (WrapperCacheDuration hname dur)
          (singleStore (mkCacheKey ⟨u, nsB⟩) e) ⟨u, nsA⟩ hres).1.fromCache =
        false := by
  intro u nsA nsB e hres hname dur hne
  have hk : mkCacheKey ⟨u, nsA⟩ ≠ mkCacheKey ⟨u, nsB⟩ := by
    intro hEq
    exact hne (congrArg CacheKey.ns hEq)
  have hstore : singleStore (mkCacheKey ⟨u, nsB⟩) e (mkCacheKey ⟨u, nsA⟩) =
      none := by
    simp [singleStore, hk]
  refine ⟨hk, ?_⟩
  simp only [WrapperCacheDuration, runWrapped, hstore]
  split <;> rfl

/-- Witness for C2: tenants ns1 and ns2 on the same URI. -/
theorem tenant_cache_isolation_witness :
    ("ns1" : String) ≠ "ns2"
    ∧ mkCacheKey ⟨"/v1/nodes", "ns1"⟩ ≠ mkCacheKey ⟨"/v1/nodes", "ns2"⟩
    ∧ (runWrapped (WrapperCacheDuration "ListNode" 2)
        (singleStore (mkCacheKey ⟨"/v1/nodes", "ns2"⟩) ⟨"pB", []⟩)
        ⟨"/v1/nodes", "ns1"⟩ ⟨true, "pA", []⟩).1.fromCache = false :=
  ⟨by decide,
   tenant_cache_isolation "/v1/nodes" "ns1" "ns2" ⟨"pB", []⟩
     ⟨true, "pA", []⟩ "ListNode" 2 (by decide)⟩

/-- C7: the default cache duration is 2 seconds, and with caching enabled
the wrapper's TTL — the TTL of every cache write it performs — is the
configured duration when strictly positive and the default otherwise. -/
theorem cache_ttl_selection :
    DefaultAPICacheDuration = 1000000000 * 2
    ∧ (∀ (cfg : AdminConfig) (hname : String), cfg.cacheEnable = true →
        WrapperCache cfg hname =
          WrapperCacheDuration hname
            (if cfg.cacheDuration > 0 then cfg.cacheDuration
             else DefaultAPICacheDuration))
    ∧ (∀ (cfg : AdminConfig) (hname : String)
        (store : CacheKey → Option CacheEntry) (req : CacheReq)
        (hres : HandlerResult) (k : CacheKey) (e : CacheEntry) (t : Int),
        cfg.cacheEnable = true →
        CacheOp.setOp k e t ∈
          (runWrapped (WrapperCache cfg hname) store req hres).2 →
        t = (if cfg.cacheDuration > 0 then cfg.cacheDuration
             else DefaultAPICacheDuration)) := by
  refine ⟨rfl, ?_, ?_⟩
  · intro cfg hname hen
    simp [WrapperCache, hen]
  · intro cfg hname store req hres k e t hen hmem
    have hw : WrapperCache cfg hname =
        WrappedHandler.cached hname
          (if cfg.cacheDuration > 0 then cfg.cacheDuration
           else DefaultAPICacheDuration) ["namespace"] ["Content-Type"] := by
      simp [WrapperCache, WrapperCacheDuration, hen]
    rw [hw] at hmem
    exact (setOp_spec _ _ _ _ _ _ _ _ _ _ hmem).1

/-- Witness for C7: an enabled configuration with a positive duration of 5,
whose cache write carries TTL 5. -/
theorem cache_ttl_selection_witness :
    (AdminConfig.mk true 5).cacheEnable = true
    ∧ CacheOp.setOp (mkCacheKey ⟨"u", "n"⟩) ⟨"p", []⟩ 5 ∈
        (runWrapped (WrapperCache ⟨true, 5⟩ "ListNode")
          (fun _ => none) ⟨"u", "n"⟩ ⟨true, "p", []⟩).2
    ∧ (5 : Int) =
        (if (AdminConfig.mk true 5).cacheDuration > 0 then
          (AdminConfig.mk true 5).cacheDuration
         else DefaultAPICacheDuration) :=
  ⟨rfl, by decide,
   cache_ttl_selection.2.2 ⟨true, 5⟩ "ListNode" (fun _ => none)
     ⟨"u", "n"⟩ ⟨true, "p", []⟩ (mkCacheKey ⟨"u", "n"⟩) ⟨"p", []⟩ 5
     rfl (by decide)⟩

/-- C8: with caching disabled, `WrapperCache` returns exactly the plain
`common.Wrapper` of the handler, and running it delegates to the handler
with no cache store operation at all. -/
theorem cache_disabled_passthrough :
    ∀ (cfg : AdminConfig) (hname : String), cfg.cacheEnable = false →
      WrapperCache cfg hname = Wrapper hname
      ∧ ∀ (store : CacheKey → Option CacheEntry) (req : CacheReq)
          (hres : HandlerResult),
          runWrapped (WrapperCache cfg hname) store req hres =
            (⟨false, hres.payload, hres.headers⟩, []) := by
  intro cfg hname hd
  have hw : WrapperCache cfg hname = Wrapper hname := by
    simp [WrapperCache, hd]
  exact ⟨hw, fun store req hres => by rw [hw]; rfl⟩

/-- Witness for C8: a disabled configuration delegates and performs no
cache operation. -/
theorem cache_disabled_passthrough_witness :
    (AdminConfig.mk false 7).cacheEnable = false
    ∧ WrapperCache ⟨false, 7⟩ "GetNode" = Wrapper "GetNode"
    ∧ runWrapped (WrapperCache ⟨false, 7⟩ "GetNode")
        (singleStore (mkCacheKey ⟨"u", "n"⟩) ⟨"p", []⟩) ⟨"u", "n"⟩
        ⟨true, "q", [("X-Trace", "t")]⟩ =
      (⟨false, "q", [("X-Trace", "t")]⟩, []) :=
  ⟨rfl,
   (cache_disabled_passthrough ⟨false, 7⟩ "GetNode" rfl).1,
   (cache_disabled_passthrough ⟨false, 7⟩ "GetNode" rfl).2
     (singleStore (mkCacheKey ⟨"u", "n"⟩) ⟨"p", []⟩) ⟨"u", "n"⟩
     ⟨true, "q", [("X-Trace", "t")]⟩⟩

/-- C9: every entry the caching wrapper stores keeps exactly the headers
named Content-Type — a header survives into the cache iff it is a
Content-Type header of the handler's response — and a cache hit replays
exactly the stored payload and those filtered headers. -/
theorem cached_headers_whitelist :
    ∀ (hname : String) (dur : Int) (store : CacheKey → Option CacheEntry)
      (req : CacheReq) (hres : HandlerResult) (k : CacheKey)
      (e : CacheEntry) (t : Int),
      (CacheOp.setOp k e t ∈
          (runWrapped (WrapperCacheDuration hname dur) store req hres).2 →
        ∀ p : String × String,
          p ∈ e.headers ↔ (p.1 = "Content-Type" ∧ p ∈ hres.headers))
      ∧ (store (mkCacheKey req) = some e →
          (runWrapped (WrapperCacheDuration hname dur) store req hres).1 =
            ⟨true, e.payload, e.headers⟩) := by
  intro hname dur store req hres k e t
  constructor
  · intro hmem p
    obtain ⟨-, -, -, he⟩ :=
      setOp_spec hname dur ["namespace"] ["Content-Type"] store req hres
        k e t (by simpa [WrapperCacheDuration] using hmem)
    subst he
    simp [keptHeaders, List.mem_filter, and_comm]
  · intro hstore
    simp only [WrapperCacheDuration, runWrapped, hstore]

/-- Witness for C9: a response carrying a Content-Type and a trace header
is stored with only the Content-Type header, and a hit replays the stored
entry. -/
theorem cached_headers_whitelist_witness :
    (CacheOp.setOp (mkCacheKey ⟨"u", "n"⟩)
        ⟨"body", [("Content-Type", "application/json")]⟩ 2 ∈
      (runWrapped (WrapperCacheDuration "GetNode" 2) (fun _ => none)
        ⟨"u", "n"⟩
        ⟨true, "body",
          [("Content-Type", "application/json"), ("X-Trace", "t")]⟩).2)
    ∧ ((("Content-Type", "application/json") : String × String) ∈
        ([("Content-Type", "application/json")] : List (String × String)) ↔
        (("Content-Type", "application/json") : String × String).1 =
            "Content-Type"
          ∧ (("Content-Type", "application/json") : String × String) ∈
            ([("Content-Type", "application/json"), ("X-Trace", "t")] :
              List (String × String)))
    ∧ ((singleStore (mkCacheKey ⟨"u", "n"⟩) ⟨"p", []⟩) (mkCacheKey ⟨"u", "n"⟩) =
        some ⟨"p", []⟩)
    ∧ (runWrapped (WrapperCacheDuration "GetNode" 2)
        (singleStore (mkCacheKey ⟨"u", "n"⟩) ⟨"p", []⟩) ⟨"u", "n"⟩
        ⟨true, "q", []⟩).1 = ⟨true, "p", []⟩ :=
  ⟨by decide,
   (cached_headers_whitelist "GetNode" 2 (fun _ => none) ⟨"u", "n"⟩
      ⟨true, "body", [("Content-Type", "application/json"), ("X-Trace", "t")]⟩
      (mkCacheKey ⟨"u", "n"⟩) ⟨"body", [("Content-Type", "application/json")]⟩
      2).1 (by decide) ("Content-Type", "application/json"),
   by decide,
   (cached_headers_whitelist "GetNode" 2
      (singleStore (mkCacheKey ⟨"u", "n"⟩) ⟨"p", []⟩) ⟨"u", "n"⟩
      ⟨true, "q", []⟩ (mkCacheKey ⟨"u", "n"⟩) ⟨"p", []⟩ 2).2 (by decide)⟩

/-- C10: the package-level `NodeCollector` is nil at start, untouched by
`NewAdminServer`, set by `InitRoute` to that server's
`api.NodeNumberCollector`, and the quota handler reads whatever the
variable currently holds: before any `InitRoute` it is not any server's
collector, and after another server's `InitRoute` it is the other server's
collector, not this one's. -/
theorem node_collector_global :
    initialPkgVars.nodeCollector = none
    ∧ (∀ p : PkgVars, NewAdminServerGlobals p = p)
    ∧ (∀ (s : ServerModel) (p : PkgVars),
        NodeQuotaCollector (InitRouteGlobals s p) = some s.nodeNumberCollector)
    ∧ (∀ s : ServerModel,
        NodeQuotaCollector (NewAdminServerGlobals initialPkgVars) ≠
          some s.nodeNumberCollector)
    ∧ (∀ (sA sB : ServerModel) (p : PkgVars),
        sA.nodeNumberCollector ≠ sB.nodeNumberCollector →
        NodeQuotaCollector (InitRouteGlobals sB (InitRouteGlobals sA p)) ≠
          some sA.nodeNumberCollector) := by
  refine ⟨rfl, fun p => rfl, fun s p => rfl, ?_, ?_⟩
  · intro s h
    simp [NodeQuotaCollector, NewAdminServerGlobals, initialPkgVars] at h
  · intro sA sB p hne h
    simp only [NodeQuotaCollector, InitRouteGlobals, Option.some.injEq] at h
    exact hne h.symm

/-- Witness for C10: two servers with distinct collectors; after the second
server's `InitRoute`, the variable no longer holds the first server's
collector. -/
theorem node_collector_global_witness :
    (ServerModel.mk 0).nodeNumberCollector ≠ (ServerModel.mk 1).nodeNumberCollector
    ∧ NodeQuotaCollector
        (InitRouteGlobals ⟨1⟩ (InitRouteGlobals ⟨0⟩ initialPkgVars)) ≠
      some (ServerModel.mk 0).nodeNumberCollector :=
  ⟨by decide,
   node_collector_global.2.2.2.2 ⟨0⟩ ⟨1⟩ initialPkgVars (by decide)⟩

end AdminServer
